import Mathlib

/-!
Shallow embedding of the two utility scripts of the repository
(`src/utils/events-importer.py` and `src/utils/signal-fetcher.py`),
together with theorems settling the stated behavioural claims.

External library calls (`json.loads`, the remote insert endpoint) are
modelled as explicit function parameters; everything written in the
scripts themselves is translated directly.
-/

namespace CtxApp

/-- Python scalar values as they appear in spreadsheet cells read by
pandas: NaN, the two infinite floats, `None`, ints, finite floats,
strings and booleans. -/
inductive PValue where
  | nan
  | pinf
  | ninf
  | none
  | int (n : Int)
  | float (q : Rat)
  | str (s : String)
  | bool (b : Bool)
deriving DecidableEq

/-- Model of `pd.isna(v)`: true for NaN and for `None`. -/
def PValue.isna : PValue → Bool
  | .nan => true
  | .none => true
  | _ => false

/-- Model of `isinstance(v, float) and (v == float("inf") or v == float("-inf"))`:
true exactly for the two infinite floats (NaN compares unequal to both). -/
def PValue.isInfinite : PValue → Bool
  | .pinf => true
  | .ninf => true
  | _ => false

/-- One spreadsheet row with the six columns the importer reads
(`row["eInd"]`, `row["eDescriptionENGL"]`, ...). -/
structure XlsxRow where
  eInd : PValue
  eDescriptionENGL : PValue
  eDescriptionSLO : PValue
  eID : PValue
  eDescriptionButt : PValue
  Notes : PValue
deriving DecidableEq

/-- The `event_data` dict built for one row before normalization. -/
structure EventData where
  e_ind : PValue
  e_description_engl : PValue
  e_description_slo : PValue
  e_id : PValue
  e_description_butt : PValue
  notes : PValue
deriving DecidableEq

/-- The six field values of an event record, in dict-construction order. -/
def EventData.fields (d : EventData) : List PValue :=
  [d.e_ind, d.e_description_engl, d.e_description_slo,
   d.e_id, d.e_description_butt, d.notes]

/-- Model of `event_data = { "e_ind": row["eInd"], ... }`. -/
def buildEventData (row : XlsxRow) : EventData :=
  { e_ind := row.eInd
    e_description_engl := row.eDescriptionENGL
    e_description_slo := row.eDescriptionSLO
    e_id := row.eID
    e_description_butt := row.eDescriptionButt
    notes := row.Notes }

/-- Body of the normalization loop:
`if pd.isna(v) or (isinstance(v, float) and (v == inf or v == -inf)): event_data[k] = None`. -/
def normalizeValue (v : PValue) : PValue :=
  if v.isna || v.isInfinite then PValue.none else v

/-- The normalization loop applied to every field of `event_data`. -/
def normalizeEventData (d : EventData) : EventData :=
  { e_ind := normalizeValue d.e_ind
    e_description_engl := normalizeValue d.e_description_engl
    e_description_slo := normalizeValue d.e_description_slo
    e_id := normalizeValue d.e_id
    e_description_butt := normalizeValue d.e_description_butt
    notes := normalizeValue d.notes }

/-- One `supabase.table(t).insert(record).execute()` call. -/
structure InsertCall where
  table : String
  record : EventData
deriving DecidableEq

/-- Observable result of one importer run: the insert calls issued in
order, the remote-table contents appended by the successful inserts, and
whether the loop ran to completion (an insert failure is an uncaught
exception that aborts the remaining iteration). -/
structure ImportResult where
  calls : List InsertCall
  tableRows : List EventData
  completed : Bool
deriving DecidableEq

/-- The `for _, row in df.iterrows()` loop of the importer.  `insertOk i d`
tells whether the remote insert of record `d` (the `i`-th call) succeeds;
a failed insert raises, so the loop stops right there with nothing caught
and nothing rolled back. -/
def importerLoop (insertOk : Nat → EventData → Bool) :
    Nat → List EventData → List XlsxRow → ImportResult
  | _, tbl, [] => ⟨[], tbl, true⟩
  | i, tbl, row :: rest =>
    let d := normalizeEventData (buildEventData row)
    if insertOk i d then
      let res := importerLoop insertOk (i + 1) (tbl ++ [d]) rest
      ⟨⟨"event_codes", d⟩ :: res.calls, res.tableRows, res.completed⟩
    else
      ⟨[⟨"event_codes", d⟩], tbl, false⟩

/-- The importer main body after reading the spreadsheet into `df`. -/
def importerMain (insertOk : Nat → EventData → Bool) (df : List XlsxRow) : ImportResult :=
  importerLoop insertOk 0 [] df

/-- JSON-like values, also standing for the Python values a `data`
payload field can hold (a dict, a string, or any other JSON value). -/
inductive Json where
  | null
  | bool (b : Bool)
  | num (n : Int)
  | str (s : String)
  | arr (elems : List Json)
  | obj (fields : List (String × Json))

/-- Python truthiness of a payload value (`if signal_json:`). -/
def Json.truthy : Json → Bool
  | .null => false
  | .bool b => b
  | .num n => n != 0
  | .str s => s != ""
  | .arr l => !l.isEmpty
  | .obj l => !l.isEmpty

/-- Model of `signal.get(k, default)`: total on dicts, raises (AttributeError)
on any non-dict value. -/
def pyGet (signal : Json) (k : String) (dflt : Json) : Except Unit Json :=
  match signal with
  | .obj fields => .ok ((fields.lookup k).getD dflt)
  | _ => .error ()

/-- One row of the `sensor_data` query result.  `data` is the payload
field: `Option.none` models an absent key (`row.get("data")` → `None`). -/
structure SensorRow where
  sensor_type_id : String
  timestamp : String
  data : Option Json

/-- The payload decode shared by both parse paths: an already-structured
dict is used directly (`isinstance(signal_json, dict)`), a string goes
through `json.loads` (modelled by the `loads` parameter), and any other
value makes `json.loads` raise a TypeError. -/
def decodePayload (loads : String → Except Unit Json) (v : Json) : Except Unit Json :=
  match v with
  | .obj fields => .ok (.obj fields)
  | .str s => loads s
  | _ => .error ()

/-- The try-block body of `parse_signals` for one truthy payload: each
append happens only after the corresponding `signal.get` succeeded, and
the first raise aborts the rest of the body (the exception is caught by
the surrounding `except`, which just logs). -/
def parseSignalsBody (loads : String → Except Unit Json)
    (xs ys zs : List Json) (v : Json) : List Json × List Json × List Json :=
  match decodePayload loads v with
  | .error _ => (xs, ys, zs)
  | .ok signal =>
    match pyGet signal "x" (.num 0) with
    | .error _ => (xs, ys, zs)
    | .ok x =>
      match pyGet signal "y" (.num 0) with
      | .error _ => (xs ++ [x], ys, zs)
      | .ok y =>
        match pyGet signal "z" (.num 0) with
        | .error _ => (xs ++ [x], ys ++ [y], zs)
        | .ok z => (xs ++ [x], ys ++ [y], zs ++ [z])

/-- One iteration of the `for row in data` loop of `parse_signals`:
a row whose payload is absent or falsy is skipped before any decode. -/
def parseSignalsStep (loads : String → Except Unit Json)
    (st : List Json × List Json × List Json) (row : SensorRow) :
    List Json × List Json × List Json :=
  match row.data with
  | Option.none => st
  | Option.some v => if v.truthy then parseSignalsBody loads st.1 st.2.1 st.2.2 v else st

/-- Model of `parse_signals(data)`: returns the three channel lists `xs, ys, zs`. -/
def parse_signals (loads : String → Except Unit Json)
    (data : List SensorRow) : List Json × List Json × List Json :=
  data.foldl (parseSignalsStep loads) ([], [], [])

/-- One record appended by `parse_signals_to_dataframe`. -/
structure SignalRecord where
  x : Json
  y : Json
  z : Json
  timestamp : String

/-- Building one record in `parse_signals_to_dataframe`: decode, then the
three `signal.get` calls; there is no try/except here, so any raise
propagates (`Except.error`). -/
def recordOfRow (loads : String → Except Unit Json) (v : Json) (ts : String) :
    Except Unit SignalRecord :=
  match decodePayload loads v with
  | .error e => .error e
  | .ok signal =>
    match pyGet signal "x" (.num 0) with
    | .error e => .error e
    | .ok x =>
      match pyGet signal "y" (.num 0) with
      | .error e => .error e
      | .ok y =>
        match pyGet signal "z" (.num 0) with
        | .error e => .error e
        | .ok z => .ok ⟨x, y, z, ts⟩

/-- Model of `parse_signals_to_dataframe(data)`: the resulting dataframe is the
list of records in row order; an uncaught raise anywhere in the loop
propagates to the caller. -/
def parse_signals_to_dataframe (loads : String → Except Unit Json) :
    List SensorRow → Except Unit (List SignalRecord)
  | [] => .ok []
  | row :: rest =>
    match row.data with
    | Option.none => parse_signals_to_dataframe loads rest
    | Option.some v =>
      if v.truthy then
        match recordOfRow loads v row.timestamp with
        | .error e => .error e
        | .ok r =>
          match parse_signals_to_dataframe loads rest with
          | .error e => .error e
          | .ok recs => .ok (r :: recs)
      else parse_signals_to_dataframe loads rest

/-- A supabase query as built by the two fetch functions: table, selected
columns, equality filters, `(column, op, value)` range filters, and an
optional row limit (the scripts never set one). -/
structure Query where
  table : String
  selectCols : String
  eqFilters : List (String × String)
  rangeFilters : List (String × String × String)
  rowLimit : Option Nat
deriving DecidableEq

/-- The fixed accelerometer sensor category identifier. -/
def accelSensorTypeId : String := "3b48eed5-6ece-4eb8-8c88-b5e645839385"

/-- The fixed gyroscope sensor category identifier. -/
def gyroSensorTypeId : String := "d4ad2653-b430-40c2-9f47-bdc140119c57"

/-- The query built by `fetch_accelerometer_data(date_str)`. -/
def fetch_accelerometer_query (date_str : String) : Query :=
  { table := "sensor_data"
    selectCols := "*"
    eqFilters := [("sensor_type_id", accelSensorTypeId)]
    rangeFilters := [("timestamp", "gte", date_str ++ "T00:00:00"),
                     ("timestamp", "lt", date_str ++ "T23:59:59")]
    rowLimit := Option.none }

/-- The query built by `fetch_gyroscope_data(date_str)`. -/
def fetch_gyroscope_query (date_str : String) : Query :=
  { table := "sensor_data"
    selectCols := "*"
    eqFilters := [("sensor_type_id", gyroSensorTypeId)]
    rangeFilters := [("timestamp", "gte", date_str ++ "T00:00:00"),
                     ("timestamp", "lt", date_str ++ "T23:59:59")]
    rowLimit := Option.none }

/-- The value of a named column of a sensor row, as the remote filter
sees it. -/
def colValue (r : SensorRow) (c : String) : Option String :=
  if c = "sensor_type_id" then Option.some r.sensor_type_id
  else if c = "timestamp" then Option.some r.timestamp
  else Option.none

/-- Whether a row satisfies one `.eq(column, value)` filter. -/
def matchesEq (r : SensorRow) (f : String × String) : Bool :=
  colValue r f.1 = Option.some f.2

/-- Whether a row satisfies one `.filter(column, op, value)` filter:
`gte` keeps rows with column value `≥ v`, `lt` keeps rows with column
value `< v` (ISO-8601 timestamps compare correctly as strings). -/
def matchesRange (r : SensorRow) (f : String × String × String) : Bool :=
  match colValue r f.1 with
  | Option.some cell =>
    if f.2.1 = "gte" then decide (f.2.2 ≤ cell)
    else if f.2.1 = "lt" then decide (cell < f.2.2)
    else false
  | Option.none => false

/-- Denotation of a query against a table of rows: keep the rows passing
every filter, truncated by the row limit when one is set. -/
def runQuery (q : Query) (tbl : List SensorRow) : List SensorRow :=
  let kept := tbl.filter (fun r =>
    q.eqFilters.all (matchesEq r) && q.rangeFilters.all (matchesRange r))
  match q.rowLimit with
  | Option.some n => kept.take n
  | Option.none => kept

/-- Observable outcome of one signal-fetcher run: the messages printed,
the chart files written (in order), and the process exit code. -/
structure FetchOutcome where
  messages : List String
  charts : List String
  exitCode : Nat
deriving DecidableEq

/-- Model of `plot_signals_from_dataframe(df, title, filename)`: `df["x"]` raises
a KeyError on a dataframe built from zero records (it has no columns),
which propagates; otherwise the figure is saved to `filename`. -/
def plotFromDataframe (recs : List SignalRecord) (filename : String) :
    Except Unit String :=
  if recs.isEmpty then .error () else .ok filename

/-- The fetcher main body after the two fetches returned
`accel_data` and `gyro_data`: the two emptiness checks (each prints and
exits 0), then parse + plot for each category; a raise anywhere there is
uncaught and terminates with a nonzero status. -/
def fetcherMain (loads : String → Except Unit Json)
    (accel_data gyro_data : List SensorRow) : FetchOutcome :=
  if accel_data.isEmpty then
    ⟨["No data found for the given date."], [], 0⟩
  else if gyro_data.isEmpty then
    ⟨["No gyroscope data found for the given date."], [], 0⟩
  else
    match parse_signals_to_dataframe loads accel_data with
    | .error _ => ⟨[], [], 1⟩
    | .ok accel_df =>
      match plotFromDataframe accel_df "accel_signal_plot.png" with
      | .error _ => ⟨[], [], 1⟩
      | .ok f1 =>
        match parse_signals_to_dataframe loads gyro_data with
        | .error _ => ⟨["Plot saved as " ++ f1], [f1], 1⟩
        | .ok gyro_df =>
          match plotFromDataframe gyro_df "gyro_signal_plot.png" with
          | .error _ => ⟨["Plot saved as " ++ f1], [f1], 1⟩
          | .ok f2 =>
            ⟨["Plot saved as " ++ f1, "Plot saved as " ++ f2], [f1, f2], 0⟩

/-! ## Concrete inputs used by witnesses -/

/-- A concrete sensor row used by witnesses. -/
def sampleSensorRow : SensorRow :=
  ⟨accelSensorTypeId, "2024-01-01T10:00:00", Option.none⟩

/-- A concrete stand-in for `json.loads` used by witnesses: it decodes a
few fixed well-formed documents the way `json.loads` does and fails on
everything else (in particular on `"oops"`, which is malformed JSON). -/
def demoLoads : String → Except Unit Json := fun s =>
  if s = "\x7b\"x\": 1, \"y\": 2, \"z\": 3\x7d" then
    .ok (.obj [("x", .num 1), ("y", .num 2), ("z", .num 3)])
  else if s = "\x7b\"x\": 1, \"y\": 2\x7d" then
    .ok (.obj [("x", .num 1), ("y", .num 2)])
  else if s = "\x7b\"y\": 2, \"z\": 3\x7d" then
    .ok (.obj [("y", .num 2), ("z", .num 3)])
  else if s = "\x7b\"x\": 1, \"z\": 3\x7d" then
    .ok (.obj [("x", .num 1), ("z", .num 3)])
  else .error ()

/-- A row with a well-formed structured payload, used by witnesses. -/
def goodRow : SensorRow := ⟨"", "t0", Option.some (.obj [("x", Json.num 9)])⟩

/-- A second row with a well-formed structured payload. -/
def goodRow2 : SensorRow := ⟨"", "t3", Option.some (.obj [("y", Json.num 7)])⟩

/-- A row whose payload is a string that fails to decode as JSON. -/
def badRow : SensorRow := ⟨"", "t1", Option.some (.str "oops")⟩

/-- A row whose payload is JSON null (falsy, so it is skipped). -/
def nullRow : SensorRow := ⟨"", "t2", Option.some Json.null⟩

/-! ## Helper lemmas -/

/-- Behaviour of the per-field normalization on every kind of value. -/
theorem normalizeValue_spec (v : PValue) :
    (v.isna = true ∨ v.isInfinite = true → normalizeValue v = PValue.none) ∧
    (v.isna = false → v.isInfinite = false → normalizeValue v = v) ∧
    normalizeValue v ≠ PValue.nan ∧ normalizeValue v ≠ PValue.pinf ∧
    normalizeValue v ≠ PValue.ninf := by
  cases v <;> simp [normalizeValue, PValue.isna, PValue.isInfinite]

/-- When every insert from index `i` on succeeds, the loop issues one call
per remaining row, in order, and appends every record to the table. -/
theorem importerLoop_all_ok (insertOk : Nat → EventData → Bool) :
    ∀ (df : List XlsxRow) (i : Nat) (tbl : List EventData),
      (∀ j (hj : j < df.length),
        insertOk (i + j) (normalizeEventData (buildEventData (df.get ⟨j, hj⟩))) = true) →
      importerLoop insertOk i tbl df =
        ⟨df.map (fun r => ⟨"event_codes", normalizeEventData (buildEventData r)⟩),
         tbl ++ df.map (fun r => normalizeEventData (buildEventData r)), true⟩ := by
  intro df
  induction df with
  | nil => intro i tbl _; simp [importerLoop]
  | cons row rest ih =>
    intro i tbl h
    have h0 : insertOk i (normalizeEventData (buildEventData row)) = true := by
      simpa using h 0 (Nat.succ_pos rest.length)
    simp only [importerLoop, h0, if_true]
    rw [ih (i + 1) (tbl ++ [normalizeEventData (buildEventData row)]) ?_]
    · simp
    · intro j hj
      have := h (j + 1) (Nat.succ_lt_succ hj)
      simpa [Nat.add_comm, Nat.add_left_comm, Nat.add_assoc] using this

/-- When the inserts up to index `k` succeed and the one at `k` fails, the
loop issues exactly the calls for rows `0..k` and stops, leaving the table
extended by the first `k` records only. -/
theorem importerLoop_first_fail (insertOk : Nat → EventData → Bool) :
    ∀ (df : List XlsxRow) (k i : Nat) (tbl : List EventData) (hk : k < df.length),
      (∀ j (hj : j < k), insertOk (i + j)
          (normalizeEventData (buildEventData (df.get ⟨j, Nat.lt_trans hj hk⟩))) = true) →
      insertOk (i + k) (normalizeEventData (buildEventData (df.get ⟨k, hk⟩))) = false →
      importerLoop insertOk i tbl df =
        ⟨(df.take (k + 1)).map (fun r => ⟨"event_codes", normalizeEventData (buildEventData r)⟩),
         tbl ++ (df.take k).map (fun r => normalizeEventData (buildEventData r)), false⟩ := by
  intro df
  induction df with
  | nil => intro k i tbl hk; exact absurd hk (by simp)
  | cons row rest ih =>
    intro k i tbl hk hsucc hfail
    cases k with
    | zero =>
      have hf : insertOk i (normalizeEventData (buildEventData row)) = false := by
        simpa using hfail
      simp [importerLoop, hf]
    | succ k =>
      have h0 : insertOk i (normalizeEventData (buildEventData row)) = true := by
        simpa using hsucc 0 (Nat.succ_pos k)
      simp only [importerLoop, h0, if_true]
      rw [ih k (i + 1) (tbl ++ [normalizeEventData (buildEventData row)])
            (Nat.lt_of_succ_lt_succ (by simpa using hk)) ?_ ?_]
      · simp [List.append_assoc]
      · intro j hj
        have := hsucc (j + 1) (Nat.succ_lt_succ hj)
        simpa [Nat.add_comm, Nat.add_left_comm, Nat.add_assoc] using this
      · have := hfail
        simpa [Nat.add_comm, Nat.add_left_comm, Nat.add_assoc] using this

/-! ## Claims about the importer -/

/-- C1: for every input row, every field whose value is NaN or an infinite
float is replaced by null in the event-code record before the insert call;
the submitted record never contains NaN or an infinite value in any of its
six fields, and finite values are passed through unchanged. -/
theorem c1_nonfinite_fields_nulled (row : XlsxRow) :
    ∀ p ∈ (buildEventData row).fields.zip (normalizeEventData (buildEventData row)).fields,
      (p.1.isna = true ∨ p.1.isInfinite = true → p.2 = PValue.none) ∧
      (p.1.isna = false → p.1.isInfinite = false → p.2 = p.1) ∧
      p.2 ≠ PValue.nan ∧ p.2 ≠ PValue.pinf ∧ p.2 ≠ PValue.ninf := by
  intro p hp
  simp only [EventData.fields, buildEventData, normalizeEventData, List.zip,
    List.zipWith, List.mem_cons, List.not_mem_nil, or_false] at hp
  rcases hp with h | h | h | h | h | h <;> subst h <;> exact normalizeValue_spec _

/-- Witness for C1 at a concrete row whose first field is NaN. -/
theorem c1_witness :
    (PValue.nan.isna = true ∨ PValue.nan.isInfinite = true → PValue.none = PValue.none) ∧
    (PValue.nan.isna = false → PValue.nan.isInfinite = false → PValue.none = PValue.nan) ∧
    PValue.none ≠ PValue.nan ∧ PValue.none ≠ PValue.pinf ∧ PValue.none ≠ PValue.ninf :=
  c1_nonfinite_fields_nulled
    ⟨PValue.nan, PValue.pinf, PValue.ninf, PValue.int 7, PValue.float 1, PValue.str "a"⟩
    (PValue.nan, PValue.none) (by decide)

/-- C2: for a spreadsheet with N rows all of whose inserts succeed, the
importer issues exactly N insert calls against the `event_codes` table,
one per row, in row order, each call carrying a single record. -/
theorem c2_one_insert_per_row (insertOk : Nat → EventData → Bool) (df : List XlsxRow)
    (h : ∀ j (hj : j < df.length),
      insertOk j (normalizeEventData (buildEventData (df.get ⟨j, hj⟩))) = true) :
    (importerMain insertOk df).calls =
      df.map (fun r => ⟨"event_codes", normalizeEventData (buildEventData r)⟩) ∧
    (importerMain insertOk df).calls.length = df.length ∧
    (importerMain insertOk df).completed = true := by
  unfold importerMain
  rw [importerLoop_all_ok insertOk df 0 [] (by simpa using h)]
  simp

/-- Witness for C2 on a concrete two-row spreadsheet with all inserts
succeeding. -/
theorem c2_witness :
    (importerMain (fun _ _ => true) [⟨PValue.int 1, PValue.str "a", PValue.str "b",
        PValue.str "c", PValue.str "d", PValue.none⟩,
      ⟨PValue.int 2, PValue.nan, PValue.str "e", PValue.str "f", PValue.str "g",
        PValue.pinf⟩]).calls =
      [⟨PValue.int 1, PValue.str "a", PValue.str "b", PValue.str "c", PValue.str "d",
        PValue.none⟩,
       ⟨PValue.int 2, PValue.nan, PValue.str "e", PValue.str "f", PValue.str "g",
        PValue.pinf⟩].map
        (fun r => ⟨"event_codes", normalizeEventData (buildEventData r)⟩) ∧
    (importerMain (fun _ _ => true) [⟨PValue.int 1, PValue.str "a", PValue.str "b",
        PValue.str "c", PValue.str "d", PValue.none⟩,
      ⟨PValue.int 2, PValue.nan, PValue.str "e", PValue.str "f", PValue.str "g",
        PValue.pinf⟩]).calls.length = 2 ∧
    (importerMain (fun _ _ => true) [⟨PValue.int 1, PValue.str "a", PValue.str "b",
        PValue.str "c", PValue.str "d", PValue.none⟩,
      ⟨PValue.int 2, PValue.nan, PValue.str "e", PValue.str "f", PValue.str "g",
        PValue.pinf⟩]).completed = true :=
  c2_one_insert_per_row (fun _ _ => true) _ (fun _ _ => rfl)

/-- C6: if the insert of row `k` (0-based) fails after all earlier inserts
succeeded, the importer issues exactly `k+1` calls (the failing one
included), none for any later row, catches nothing, and the first `k`
records stay in the remote table (no rollback). -/
theorem c6_failfast_no_rollback (insertOk : Nat → EventData → Bool) (df : List XlsxRow)
    (k : Nat) (hk : k < df.length)
    (hsucc : ∀ j (hj : j < k), insertOk j
      (normalizeEventData (buildEventData (df.get ⟨j, Nat.lt_trans hj hk⟩))) = true)
    (hfail : insertOk k (normalizeEventData (buildEventData (df.get ⟨k, hk⟩))) = false) :
    (importerMain insertOk df).calls =
      (df.take (k + 1)).map (fun r => ⟨"event_codes", normalizeEventData (buildEventData r)⟩) ∧
    (importerMain insertOk df).calls.length = k + 1 ∧
    (importerMain insertOk df).tableRows =
      (df.take k).map (fun r => normalizeEventData (buildEventData r)) ∧
    (importerMain insertOk df).completed = false := by
  unfold importerMain
  rw [importerLoop_first_fail insertOk df k 0 [] hk (by simpa using hsucc) (by simpa using hfail)]
  refine ⟨rfl, ?_, by simp, rfl⟩
  simp [List.length_take, Nat.succ_le_of_lt hk]

/-- Witness for C6: a two-row spreadsheet whose second insert fails. -/
theorem c6_witness :
    (importerMain (fun i _ => i == 0) [⟨PValue.int 1, PValue.str "a", PValue.str "b",
        PValue.str "c", PValue.str "d", PValue.none⟩,
      ⟨PValue.int 2, PValue.str "e", PValue.str "f", PValue.str "g", PValue.str "h",
        PValue.none⟩]).calls =
      ([⟨PValue.int 1, PValue.str "a", PValue.str "b", PValue.str "c", PValue.str "d",
        PValue.none⟩,
       ⟨PValue.int 2, PValue.str "e", PValue.str "f", PValue.str "g", PValue.str "h",
        PValue.none⟩].take 2).map
        (fun r => ⟨"event_codes", normalizeEventData (buildEventData r)⟩) ∧
    (importerMain (fun i _ => i == 0) [⟨PValue.int 1, PValue.str "a", PValue.str "b",
        PValue.str "c", PValue.str "d", PValue.none⟩,
      ⟨PValue.int 2, PValue.str "e", PValue.str "f", PValue.str "g", PValue.str "h",
        PValue.none⟩]).calls.length = 2 ∧
    (importerMain (fun i _ => i == 0) [⟨PValue.int 1, PValue.str "a", PValue.str "b",
        PValue.str "c", PValue.str "d", PValue.none⟩,
      ⟨PValue.int 2, PValue.str "e", PValue.str "f", PValue.str "g", PValue.str "h",
        PValue.none⟩]).tableRows =
      ([⟨PValue.int 1, PValue.str "a", PValue.str "b", PValue.str "c", PValue.str "d",
        PValue.none⟩,
       ⟨PValue.int 2, PValue.str "e", PValue.str "f", PValue.str "g", PValue.str "h",
        PValue.none⟩].take 1).map (fun r => normalizeEventData (buildEventData r)) ∧
    (importerMain (fun i _ => i == 0) [⟨PValue.int 1, PValue.str "a", PValue.str "b",
        PValue.str "c", PValue.str "d", PValue.none⟩,
      ⟨PValue.int 2, PValue.str "e", PValue.str "f", PValue.str "g", PValue.str "h",
        PValue.none⟩]).completed = false :=
  c6_failfast_no_rollback (fun i _ => i == 0) _ 1 (by decide)
    (fun j hj => by interval_cases j <;> rfl) rfl

/-! ## Claims about the fetcher's main flow and queries -/

/-- C4: if either category's query result is empty, the fetcher prints a
message and exits 0 before producing any chart: an empty accelerometer
result short-circuits regardless of the gyroscope result, and a non-empty
accelerometer result with an empty gyroscope result likewise yields no
chart and exit code 0. -/
theorem c4_empty_result_early_exit (loads : String → Except Unit Json)
    (accel_data gyro_data : List SensorRow) :
    (accel_data = [] →
      fetcherMain loads accel_data gyro_data =
        ⟨["No data found for the given date."], [], 0⟩) ∧
    (accel_data ≠ [] → gyro_data = [] →
      fetcherMain loads accel_data gyro_data =
        ⟨["No gyroscope data found for the given date."], [], 0⟩) := by
  constructor
  · intro h; subst h; rfl
  · intro ha hg
    subst hg
    unfold fetcherMain
    rw [if_neg (by simpa [List.isEmpty_iff] using ha)]
    rfl

/-- Witness for C4: an empty accelerometer result beside a non-empty
gyroscope result, and the converse. -/
theorem c4_witness :
    fetcherMain demoLoads [] [sampleSensorRow] =
      ⟨["No data found for the given date."], [], 0⟩ ∧
    fetcherMain demoLoads [sampleSensorRow] [] =
      ⟨["No gyroscope data found for the given date."], [], 0⟩ :=
  ⟨(c4_empty_result_early_exit demoLoads [] [sampleSensorRow]).1 rfl,
   (c4_empty_result_early_exit demoLoads [sampleSensorRow] []).2 (by simp) rfl⟩

/-- C7: both fetch operations query the `sensor_data` table with an
equality filter on their fixed sensor category identifier, an inclusive
lower timestamp bound `D T00:00:00`, a strict upper bound `D T23:59:59`
(so the selected window is `[D 00:00:00, D 23:59:59)`), and no explicit
row limit. -/
theorem c7_query_shape (date_str : String) (tbl : List SensorRow) (r : SensorRow) :
    (fetch_accelerometer_query date_str).table = "sensor_data" ∧
    (fetch_gyroscope_query date_str).table = "sensor_data" ∧
    (fetch_accelerometer_query date_str).eqFilters =
      [("sensor_type_id", accelSensorTypeId)] ∧
    (fetch_gyroscope_query date_str).eqFilters =
      [("sensor_type_id", gyroSensorTypeId)] ∧
    (fetch_accelerometer_query date_str).rowLimit = Option.none ∧
    (fetch_gyroscope_query date_str).rowLimit = Option.none ∧
    (r ∈ runQuery (fetch_accelerometer_query date_str) tbl ↔
      r ∈ tbl ∧ r.sensor_type_id = accelSensorTypeId ∧
      date_str ++ "T00:00:00" ≤ r.timestamp ∧ r.timestamp < date_str ++ "T23:59:59") ∧
    (r ∈ runQuery (fetch_gyroscope_query date_str) tbl ↔
      r ∈ tbl ∧ r.sensor_type_id = gyroSensorTypeId ∧
      date_str ++ "T00:00:00" ≤ r.timestamp ∧ r.timestamp < date_str ++ "T23:59:59") := by
  refine ⟨rfl, rfl, rfl, rfl, rfl, rfl, ?_, ?_⟩ <;>
    simp [runQuery, fetch_accelerometer_query, fetch_gyroscope_query,
      matchesEq, matchesRange, colValue, List.mem_filter, and_assoc]

/-! ## Helper lemmas about the two parse paths -/

/-- Removing a loop iteration that leaves the state unchanged does not
change the result of `parse_signals`. -/
theorem parse_signals_middle (loads : String → Except Unit Json)
    (pre post : List SensorRow) (r : SensorRow)
    (hid : ∀ st, parseSignalsStep loads st r = st) :
    parse_signals loads (pre ++ r :: post) = parse_signals loads (pre ++ post) := by
  unfold parse_signals
  rw [List.foldl_append, List.foldl_append, List.foldl_cons, hid]

/-- A row whose payload is absent or falsy leaves the `parse_signals`
state unchanged. -/
theorem parseSignalsStep_skip (loads : String → Except Unit Json) (r : SensorRow)
    (h : r.data = Option.none ∨ ∃ v, r.data = Option.some v ∧ v.truthy = false) :
    ∀ st, parseSignalsStep loads st r = st := by
  intro st
  rcases h with h | ⟨v, hv, htr⟩
  · simp [parseSignalsStep, h]
  · simp [parseSignalsStep, hv, htr]

/-- A truthy string payload whose decode raises leaves the
`parse_signals` state unchanged (the exception is caught and logged). -/
theorem parseSignalsStep_malformed (loads : String → Except Unit Json)
    (r : SensorRow) (s : String)
    (hbad : r.data = Option.some (.str s)) (hs : s ≠ "") (hdec : loads s = .error ()) :
    ∀ st, parseSignalsStep loads st r = st := by
  intro st
  have htr : (Json.str s).truthy = true := by simp [Json.truthy, hs]
  simp [parseSignalsStep, hbad, htr, parseSignalsBody, decodePayload, hdec]

/-- A row whose payload is absent or falsy is skipped by
`parse_signals_to_dataframe` wherever it sits in the input. -/
theorem ptdf_skip_middle (loads : String → Except Unit Json) (r : SensorRow)
    (h : r.data = Option.none ∨ ∃ v, r.data = Option.some v ∧ v.truthy = false) :
    ∀ pre post, parse_signals_to_dataframe loads (pre ++ r :: post) =
      parse_signals_to_dataframe loads (pre ++ post) := by
  intro pre
  induction pre with
  | nil =>
    intro post
    rcases h with h | ⟨v, hv, htr⟩
    · simp [parse_signals_to_dataframe, h]
    · simp [parse_signals_to_dataframe, hv, htr]
  | cons q pre ih =>
    intro post
    simp only [List.cons_append, parse_signals_to_dataframe, List.append_eq, ih post]

/-- With a truthy string payload that fails to decode somewhere in the
input, `parse_signals_to_dataframe` raises (returns an error) no matter
what surrounds the malformed row. -/
theorem ptdf_error_of_malformed (loads : String → Except Unit Json)
    (r : SensorRow) (s : String)
    (hbad : r.data = Option.some (.str s)) (hs : s ≠ "") (hdec : loads s = .error ()) :
    ∀ pre post, parse_signals_to_dataframe loads (pre ++ r :: post) = .error () := by
  intro pre
  induction pre with
  | nil =>
    intro post
    have htr : (Json.str s).truthy = true := by simp [Json.truthy, hs]
    simp [parse_signals_to_dataframe, hbad, htr, recordOfRow, decodePayload, hdec]
  | cons q pre ih =>
    intro post
    simp only [List.cons_append, parse_signals_to_dataframe, List.append_eq, ih post]
    cases hq : q.data with
    | none => rfl
    | some v =>
      by_cases htr : v.truthy = true
      · simp only [htr, if_true]
        cases recordOfRow loads v q.timestamp with
        | error e => rfl
        | ok r0 => rfl
      · simp [htr]

/-- If one `signal.get` succeeds, the payload is a dict and every other
`signal.get` succeeds too. -/
theorem pyGet_ok_of_ok (signal : Json) (a b : String) (c d x : Json)
    (h : pyGet signal a c = .ok x) : ∃ y, pyGet signal b d = .ok y := by
  cases signal with
  | obj fields => exact ⟨_, rfl⟩
  | null => simp [pyGet] at h
  | bool u => simp [pyGet] at h
  | num n => simp [pyGet] at h
  | str s => simp [pyGet] at h
  | arr l => simp [pyGet] at h

/-- The try-block body keeps the three channel lists the same length:
a raise can only happen before the first append. -/
theorem parseSignalsBody_lengths (loads : String → Except Unit Json)
    (xs ys zs : List Json) (v : Json)
    (h1 : xs.length = ys.length) (h2 : ys.length = zs.length) :
    (parseSignalsBody loads xs ys zs v).1.length =
      (parseSignalsBody loads xs ys zs v).2.1.length ∧
    (parseSignalsBody loads xs ys zs v).2.1.length =
      (parseSignalsBody loads xs ys zs v).2.2.length := by
  cases hd : decodePayload loads v with
  | error e => simp [parseSignalsBody, hd, h1, h2]
  | ok signal =>
    cases hx : pyGet signal "x" (.num 0) with
    | error e => simp [parseSignalsBody, hd, hx, h1, h2]
    | ok x =>
      obtain ⟨y, hy⟩ := pyGet_ok_of_ok signal "x" "y" (.num 0) (.num 0) x hx
      obtain ⟨z, hz⟩ := pyGet_ok_of_ok signal "x" "z" (.num 0) (.num 0) x hx
      simp [parseSignalsBody, hd, hx, hy, hz, h1, h2]

/-- One loop iteration of `parse_signals` keeps the three channel lists
the same length. -/
theorem parseSignalsStep_lengths (loads : String → Except Unit Json)
    (st : List Json × List Json × List Json) (r : SensorRow)
    (h1 : st.1.length = st.2.1.length) (h2 : st.2.1.length = st.2.2.length) :
    (parseSignalsStep loads st r).1.length = (parseSignalsStep loads st r).2.1.length ∧
    (parseSignalsStep loads st r).2.1.length = (parseSignalsStep loads st r).2.2.length := by
  cases hd : r.data with
  | none =>
    have hstep : parseSignalsStep loads st r = st := by simp [parseSignalsStep, hd]
    rw [hstep]
    exact ⟨h1, h2⟩
  | some v =>
    by_cases htr : v.truthy = true
    · have hstep : parseSignalsStep loads st r = parseSignalsBody loads st.1 st.2.1 st.2.2 v := by
        simp [parseSignalsStep, hd, htr]
      rw [hstep]
      exact parseSignalsBody_lengths loads st.1 st.2.1 st.2.2 v h1 h2
    · have hstep : parseSignalsStep loads st r = st := by simp [parseSignalsStep, hd, htr]
      rw [hstep]
      exact ⟨h1, h2⟩

/-- The equal-length invariant carried through the whole loop. -/
theorem foldl_parseSignalsStep_lengths (loads : String → Except Unit Json) :
    ∀ (data : List SensorRow) (st : List Json × List Json × List Json),
      st.1.length = st.2.1.length → st.2.1.length = st.2.2.length →
      (data.foldl (parseSignalsStep loads) st).1.length =
        (data.foldl (parseSignalsStep loads) st).2.1.length ∧
      (data.foldl (parseSignalsStep loads) st).2.1.length =
        (data.foldl (parseSignalsStep loads) st).2.2.length := by
  intro data
  induction data with
  | nil => intro st h1 h2; exact ⟨h1, h2⟩
  | cons r rest ih =>
    intro st h1 h2
    rw [List.foldl_cons]
    obtain ⟨g1, g2⟩ := parseSignalsStep_lengths loads st r h1 h2
    exact ih _ g1 g2

/-- A `lookup` hit means the association list is non-empty. -/
theorem lookup_some_not_nil (o : List (String × Json)) (k : String) (j : Json)
    (h : o.lookup k = Option.some j) : o.isEmpty = false := by
  cases o with
  | nil => simp [List.lookup] at h
  | cons p rest => rfl

/-- When the record for a payload is built successfully, the try-block
body appends exactly that record's three channel values. -/
theorem parseSignalsBody_of_record (loads : String → Except Unit Json)
    (xs ys zs : List Json) (v : Json) (r : SignalRecord) (ts : String)
    (h : recordOfRow loads v ts = .ok r) :
    parseSignalsBody loads xs ys zs v = (xs ++ [r.x], ys ++ [r.y], zs ++ [r.z]) := by
  cases hd : decodePayload loads v with
  | error e => simp [recordOfRow, hd] at h
  | ok signal =>
    cases hx : pyGet signal "x" (.num 0) with
    | error e => simp [recordOfRow, hd, hx] at h
    | ok x =>
      obtain ⟨y, hy⟩ := pyGet_ok_of_ok signal "x" "y" (.num 0) (.num 0) x hx
      obtain ⟨z, hz⟩ := pyGet_ok_of_ok signal "x" "z" (.num 0) (.num 0) x hx
      have hrec : r = ⟨x, y, z, ts⟩ := by
        simp [recordOfRow, hd, hx, hy, hz] at h
        exact h.symm
      subst hrec
      simp [parseSignalsBody, hd, hx, hy, hz]

/-- When every retained row's record builds successfully, the dataframe
path succeeds and the `parse_signals` loop appends exactly the record
columns. -/
theorem ptdf_parse_signals_agree (loads : String → Except Unit Json) :
    ∀ (data : List SensorRow),
      (∀ row ∈ data, ∀ v, row.data = Option.some v → v.truthy = true →
        ∃ r, recordOfRow loads v row.timestamp = .ok r) →
      ∃ recs, parse_signals_to_dataframe loads data = .ok recs ∧
        ∀ xs ys zs : List Json,
          data.foldl (parseSignalsStep loads) (xs, ys, zs) =
            (xs ++ recs.map SignalRecord.x, ys ++ recs.map SignalRecord.y,
             zs ++ recs.map SignalRecord.z) := by
  intro data
  induction data with
  | nil =>
    intro _
    exact ⟨[], rfl, fun xs ys zs => by simp⟩
  | cons row rest ih =>
    intro h
    obtain ⟨recs, hrecs, hfold⟩ := ih (fun q hq => h q (List.mem_cons_of_mem row hq))
    cases hd : row.data with
    | none =>
      refine ⟨recs, ?_, ?_⟩
      · simpa [parse_signals_to_dataframe, hd] using hrecs
      · intro xs ys zs
        rw [List.foldl_cons]
        have hstep : parseSignalsStep loads (xs, ys, zs) row = (xs, ys, zs) := by
          simp [parseSignalsStep, hd]
        rw [hstep]
        exact hfold xs ys zs
    | some v =>
      by_cases htr : v.truthy = true
      · obtain ⟨r, hr⟩ := h row (List.mem_cons_self row rest) v hd htr
        refine ⟨r :: recs, ?_, ?_⟩
        · simp [parse_signals_to_dataframe, hd, htr, hr, hrecs]
        · intro xs ys zs
          rw [List.foldl_cons]
          have hstep : parseSignalsStep loads (xs, ys, zs) row =
              (xs ++ [r.x], ys ++ [r.y], zs ++ [r.z]) := by
            have hb := parseSignalsBody_of_record loads xs ys zs v r row.timestamp hr
            simp [parseSignalsStep, hd, htr, hb]
          rw [hstep, hfold]
          simp
      · refine ⟨recs, ?_, ?_⟩
        · simpa [parse_signals_to_dataframe, hd, htr] using hrecs
        · intro xs ys zs
          rw [List.foldl_cons]
          have hstep : parseSignalsStep loads (xs, ys, zs) row = (xs, ys, zs) := by
            simp [parseSignalsStep, hd, htr]
          rw [hstep]
          exact hfold xs ys zs

/-! ## Claims about the two parse paths -/

/-- C3: a payload that decodes to an object with numeric fields x, y, z
yields exactly that triple, and whichever single channel key is missing
(x, y or z) defaults to 0; this holds whether the payload arrives as an
already-structured object or as a JSON string. -/
theorem c3_channel_triples (loads : String → Except Unit Json)
    (o ox oy oz : List (String × Json)) (a b c : Int)
    (stid ts s sx sy sz : String)
    (hx : o.lookup "x" = Option.some (Json.num a))
    (hy : o.lookup "y" = Option.some (Json.num b))
    (hz : o.lookup "z" = Option.some (Json.num c))
    (hxx : ox.lookup "x" = Option.none)
    (hxy : ox.lookup "y" = Option.some (Json.num b))
    (hxz : ox.lookup "z" = Option.some (Json.num c))
    (hyx : oy.lookup "x" = Option.some (Json.num a))
    (hyy : oy.lookup "y" = Option.none)
    (hyz : oy.lookup "z" = Option.some (Json.num c))
    (hzx : oz.lookup "x" = Option.some (Json.num a))
    (hzy : oz.lookup "y" = Option.some (Json.num b))
    (hzz : oz.lookup "z" = Option.none)
    (hs : s ≠ "") (hls : loads s = .ok (.obj o))
    (hsx : sx ≠ "") (hlsx : loads sx = .ok (.obj ox))
    (hsy : sy ≠ "") (hlsy : loads sy = .ok (.obj oy))
    (hsz : sz ≠ "") (hlsz : loads sz = .ok (.obj oz)) :
    parse_signals loads [⟨stid, ts, Option.some (.obj o)⟩] =
      ([Json.num a], [Json.num b], [Json.num c]) ∧
    parse_signals loads [⟨stid, ts, Option.some (.str s)⟩] =
      ([Json.num a], [Json.num b], [Json.num c]) ∧
    parse_signals loads [⟨stid, ts, Option.some (.obj ox)⟩] =
      ([Json.num 0], [Json.num b], [Json.num c]) ∧
    parse_signals loads [⟨stid, ts, Option.some (.str sx)⟩] =
      ([Json.num 0], [Json.num b], [Json.num c]) ∧
    parse_signals loads [⟨stid, ts, Option.some (.obj oy)⟩] =
      ([Json.num a], [Json.num 0], [Json.num c]) ∧
    parse_signals loads [⟨stid, ts, Option.some (.str sy)⟩] =
      ([Json.num a], [Json.num 0], [Json.num c]) ∧
    parse_signals loads [⟨stid, ts, Option.some (.obj oz)⟩] =
      ([Json.num a], [Json.num b], [Json.num 0]) ∧
    parse_signals loads [⟨stid, ts, Option.some (.str sz)⟩] =
      ([Json.num a], [Json.num b], [Json.num 0]) := by
  have htro : (Json.obj o).truthy = true := by
    simp [Json.truthy, lookup_some_not_nil o "x" (Json.num a) hx]
  have htrox : (Json.obj ox).truthy = true := by
    simp [Json.truthy, lookup_some_not_nil ox "y" (Json.num b) hxy]
  have htroy : (Json.obj oy).truthy = true := by
    simp [Json.truthy, lookup_some_not_nil oy "x" (Json.num a) hyx]
  have htroz : (Json.obj oz).truthy = true := by
    simp [Json.truthy, lookup_some_not_nil oz "x" (Json.num a) hzx]
  have htrs : (Json.str s).truthy = true := by simp [Json.truthy, hs]
  have htrsx : (Json.str sx).truthy = true := by simp [Json.truthy, hsx]
  have htrsy : (Json.str sy).truthy = true := by simp [Json.truthy, hsy]
  have htrsz : (Json.str sz).truthy = true := by simp [Json.truthy, hsz]
  refine ⟨?_, ?_, ?_, ?_, ?_, ?_, ?_, ?_⟩ <;>
    simp [parse_signals, parseSignalsStep, parseSignalsBody, decodePayload, pyGet,
      htro, htrox, htroy, htroz, htrs, htrsx, htrsy, htrsz,
      hls, hlsx, hlsy, hlsz, hx, hy, hz, hxx, hxy, hxz, hyx, hyy, hyz, hzx, hzy, hzz]

/-- Witness for C3 with concrete payloads: the full triple and each of
the three single-missing-key cases, both structured and as JSON strings
decoded by `demoLoads`. -/
theorem c3_witness :
    parse_signals demoLoads [⟨"", "ts",
        Option.some (.obj [("x", Json.num 1), ("y", Json.num 2), ("z", Json.num 3)])⟩] =
      ([Json.num 1], [Json.num 2], [Json.num 3]) ∧
    parse_signals demoLoads [⟨"", "ts",
        Option.some (.str "\x7b\"x\": 1, \"y\": 2, \"z\": 3\x7d")⟩] =
      ([Json.num 1], [Json.num 2], [Json.num 3]) ∧
    parse_signals demoLoads [⟨"", "ts",
        Option.some (.obj [("y", Json.num 2), ("z", Json.num 3)])⟩] =
      ([Json.num 0], [Json.num 2], [Json.num 3]) ∧
    parse_signals demoLoads [⟨"", "ts",
        Option.some (.str "\x7b\"y\": 2, \"z\": 3\x7d")⟩] =
      ([Json.num 0], [Json.num 2], [Json.num 3]) ∧
    parse_signals demoLoads [⟨"", "ts",
        Option.some (.obj [("x", Json.num 1), ("z", Json.num 3)])⟩] =
      ([Json.num 1], [Json.num 0], [Json.num 3]) ∧
    parse_signals demoLoads [⟨"", "ts",
        Option.some (.str "\x7b\"x\": 1, \"z\": 3\x7d")⟩] =
      ([Json.num 1], [Json.num 0], [Json.num 3]) ∧
    parse_signals demoLoads [⟨"", "ts",
        Option.some (.obj [("x", Json.num 1), ("y", Json.num 2)])⟩] =
      ([Json.num 1], [Json.num 2], [Json.num 0]) ∧
    parse_signals demoLoads [⟨"", "ts",
        Option.some (.str "\x7b\"x\": 1, \"y\": 2\x7d")⟩] =
      ([Json.num 1], [Json.num 2], [Json.num 0]) :=
  c3_channel_triples demoLoads
    [("x", Json.num 1), ("y", Json.num 2), ("z", Json.num 3)]
    [("y", Json.num 2), ("z", Json.num 3)]
    [("x", Json.num 1), ("z", Json.num 3)]
    [("x", Json.num 1), ("y", Json.num 2)] 1 2 3 "" "ts"
    "\x7b\"x\": 1, \"y\": 2, \"z\": 3\x7d" "\x7b\"y\": 2, \"z\": 3\x7d"
    "\x7b\"x\": 1, \"z\": 3\x7d" "\x7b\"x\": 1, \"y\": 2\x7d"
    rfl rfl rfl rfl rfl rfl rfl rfl rfl rfl rfl rfl
    (by decide) rfl (by decide) rfl (by decide) rfl (by decide) rfl

/-- C5: a string payload that fails to decode is caught, logged and
skipped by `parse_signals` (all other rows still processed), while the
same input makes `parse_signals_to_dataframe` raise, the error
propagating to the caller. -/
theorem c5_guard_asymmetry (loads : String → Except Unit Json)
    (pre post : List SensorRow) (bad : SensorRow) (s : String)
    (hbad : bad.data = Option.some (.str s)) (hs : s ≠ "")
    (hdec : loads s = .error ()) :
    parse_signals loads (pre ++ bad :: post) = parse_signals loads (pre ++ post) ∧
    parse_signals_to_dataframe loads (pre ++ bad :: post) = .error () :=
  ⟨parse_signals_middle loads pre post bad
      (parseSignalsStep_malformed loads bad s hbad hs hdec),
   ptdf_error_of_malformed loads bad s hbad hs hdec pre post⟩

/-- Witness for C5: the malformed string `"oops"` between two good rows. -/
theorem c5_witness :
    parse_signals demoLoads [goodRow, badRow, goodRow2] =
      parse_signals demoLoads [goodRow, goodRow2] ∧
    parse_signals_to_dataframe demoLoads [goodRow, badRow, goodRow2] = .error () :=
  c5_guard_asymmetry demoLoads [goodRow] [goodRow2] badRow "oops" rfl (by decide) rfl

/-- C8: when every retained row's record builds without a raise, the two
decode paths agree: the dataframe's x, y, z columns in row order are
exactly the three lists of `parse_signals`, both paths retaining the same
rows. -/
theorem c8_two_paths_agree (loads : String → Except Unit Json) (data : List SensorRow)
    (h : ∀ row ∈ data, ∀ v, row.data = Option.some v → v.truthy = true →
      ∃ r, recordOfRow loads v row.timestamp = .ok r) :
    ∃ recs, parse_signals_to_dataframe loads data = .ok recs ∧
      parse_signals loads data =
        (recs.map SignalRecord.x, recs.map SignalRecord.y, recs.map SignalRecord.z) := by
  obtain ⟨recs, hrecs, hfold⟩ := ptdf_parse_signals_agree loads data h
  exact ⟨recs, hrecs, by simpa [parse_signals] using hfold [] [] []⟩

/-- Witness for C8 on a concrete two-row input. -/
theorem c8_witness :
    ∃ recs, parse_signals_to_dataframe demoLoads [goodRow, goodRow2] = .ok recs ∧
      parse_signals demoLoads [goodRow, goodRow2] =
        (recs.map SignalRecord.x, recs.map SignalRecord.y, recs.map SignalRecord.z) :=
  c8_two_paths_agree demoLoads [goodRow, goodRow2] (by
    intro row hrow v hv htr
    simp only [List.mem_cons, List.not_mem_nil, or_false] at hrow
    rcases hrow with hrow | hrow
    · subst hrow
      simp only [goodRow] at hv
      injection hv with hv2
      subst hv2
      exact ⟨⟨Json.num 9, Json.num 0, Json.num 0, "t0"⟩, rfl⟩
    · subst hrow
      simp only [goodRow2] at hv
      injection hv with hv2
      subst hv2
      exact ⟨⟨Json.num 0, Json.num 7, Json.num 0, "t3"⟩, rfl⟩)

/-- C9: for every input, the three lists returned by `parse_signals` have
equal length: a decode failure happens before any of the three per-row
appends, so a row contributes to all three lists or to none. -/
theorem c9_equal_channel_lengths (loads : String → Except Unit Json)
    (data : List SensorRow) :
    (parse_signals loads data).1.length = (parse_signals loads data).2.1.length ∧
    (parse_signals loads data).2.1.length = (parse_signals loads data).2.2.length :=
  foldl_parseSignalsStep_lengths loads data ([], [], []) rfl rfl

/-- C10: a row whose payload is absent, null, an empty string or an empty
object is skipped entirely by both parse paths, contributing no element
and no record, instead of a defaulted (0,0,0) sample. -/
theorem c10_falsy_payload_skipped (loads : String → Except Unit Json)
    (pre post : List SensorRow) (r : SensorRow)
    (h : r.data = Option.none ∨ r.data = Option.some Json.null ∨
         r.data = Option.some (Json.str "") ∨ r.data = Option.some (Json.obj [])) :
    parse_signals loads (pre ++ r :: post) = parse_signals loads (pre ++ post) ∧
    parse_signals_to_dataframe loads (pre ++ r :: post) =
      parse_signals_to_dataframe loads (pre ++ post) := by
  have hskip : r.data = Option.none ∨ ∃ v, r.data = Option.some v ∧ v.truthy = false := by
    rcases h with h | h | h | h
    · exact Or.inl h
    · exact Or.inr ⟨_, h, rfl⟩
    · exact Or.inr ⟨_, h, rfl⟩
    · exact Or.inr ⟨_, h, rfl⟩
  exact ⟨parse_signals_middle loads pre post r (parseSignalsStep_skip loads r hskip),
    ptdf_skip_middle loads r hskip pre post⟩

/-- Witness for C10: a null payload between two good rows. -/
theorem c10_witness :
    parse_signals demoLoads [goodRow, nullRow, goodRow2] =
      parse_signals demoLoads [goodRow, goodRow2] ∧
    parse_signals_to_dataframe demoLoads [goodRow, nullRow, goodRow2] =
      parse_signals_to_dataframe demoLoads [goodRow, goodRow2] :=
  c10_falsy_payload_skipped demoLoads [goodRow] [goodRow2] nullRow
    (Or.inr (Or.inl rfl))

end CtxApp
